import Mathlib

/-!
Shallow embedding of the ocean-data query service of this repository
(src/src/ocean_data_query.py and src/load_data.py) together with proofs of
the specified properties of its five public query operations.

Modelling conventions:
- A table row carries the four columns the query code reads (datetime, lat,
  lon, mld); SQL NULL is `Option.none`.  Numeric cells are rationals,
  datetime cells are text (the CSV loader produces a text column, and the
  query code compares and orders them as text).
- The database engine is a `Db`: the table contents plus an injected
  infrastructure failure.  `fail = some msg` means every SQL execution
  raises an exception whose text is `msg`; `fail = none` means queries
  execute normally.  A raised Python exception is an `Except.error`.
- pandas reads a SQL NULL back as a NaN/NaT sentinel; `PyVal.nan` stands
  for that sentinel and `PyVal.none` for Python None.  The per-record
  cleanup loop of the query code replaces every value for which pd.isna
  holds by None.
- The wall-clock field datetime.now().isoformat() of the response envelope
  is passed in as the `now` argument.  The `metadata` member of the
  envelope is omitted: no verified property concerns it.
-/

namespace OceanData

/-- Decidable equality of raised-or-returned results, for concrete
evaluation of the fallible validators. -/
instance {ε α : Type} [DecidableEq ε] [DecidableEq α] : DecidableEq (Except ε α) :=
  fun x y =>
  match x, y with
  | Except.ok a, Except.ok b =>
    if h : a = b then isTrue (by rw [h])
    else isFalse (by intro hc; cases hc; exact h rfl)
  | Except.ok _, Except.error _ => isFalse (by intro hc; cases hc)
  | Except.error _, Except.ok _ => isFalse (by intro hc; cases hc)
  | Except.error a, Except.error b =>
    if h : a = b then isTrue (by rw [h])
    else isFalse (by intro hc; cases hc; exact h rfl)

/-- Byte-wise lexicographic comparison of character lists: the text ordering
a SQL engine applies to the datetime column (C collation). -/
def charsLe : List Char → List Char → Bool
  | [], _ => true
  | _ :: _, [] => false
  | a :: as, b :: bs =>
    if a.toNat < b.toNat then true
    else if b.toNat < a.toNat then false
    else charsLe as bs

/-- Text comparison of two strings, as the SQL engine orders text cells. -/
def strLe (a b : String) : Bool := charsLe a.data b.data

/-- Ordering used by ORDER BY datetime ascending: SQL NULLs sort last
(the PostgreSQL default ASC NULLS LAST). -/
def dtLe : Option String → Option String → Bool
  | _, Option.none => true
  | Option.none, Option.some _ => false
  | Option.some a, Option.some b => strLe a b

/-- One row of the data table: the four columns the query code reads.
Other CSV columns pass through the code untouched and are not modelled. -/
structure Row where
  datetime : Option String
  lat : Option Rat
  lon : Option Rat
  mld : Option Rat
deriving DecidableEq

/-- Database handle: table contents plus an injected infrastructure failure. -/
structure Db where
  table : List Row
  fail : Option String
deriving DecidableEq

/-- Execution of one SQL statement against the engine: raises the injected
failure text, otherwise computes the result from the table. -/
def runSql (db : Db) (f : List Row → α) : Except String α :=
  match db.fail with
  | Option.some m => Except.error m
  | Option.none => Except.ok (f db.table)

/-- A Python value inside a returned record. -/
inductive PyVal where
  | none
  | nan
  | num (q : Rat)
  | str (s : String)
deriving DecidableEq

/-- pd.isna: true exactly on the NaN/NaT sentinel and on None. -/
def pd_isna : PyVal → Bool
  | PyVal.none => true
  | PyVal.nan => true
  | _ => false

/-- A returned record, the result of DataFrame.to_dict(records) on one row. -/
structure PyRec where
  datetime : PyVal
  lat : PyVal
  lon : PyVal
  mld : PyVal
deriving DecidableEq

/-- pandas materialisation of one text cell: SQL NULL becomes the NaT/NaN
sentinel, text comes back as a Python string. -/
def pyOfOptStr : Option String → PyVal
  | Option.none => PyVal.nan
  | Option.some s => PyVal.str s

/-- pandas materialisation of one numeric cell: SQL NULL becomes NaN. -/
def pyOfOptRat : Option Rat → PyVal
  | Option.none => PyVal.nan
  | Option.some q => PyVal.num q

/-- pd.read_sql followed by to_dict(records) on one row. -/
def readRow (r : Row) : PyRec :=
  ⟨pyOfOptStr r.datetime, pyOfOptRat r.lat, pyOfOptRat r.lon, pyOfOptRat r.mld⟩

/-- The cleanup the query code applies to each record value:
if pd.isna(value) then record[key] = None. -/
def cleanVal (v : PyVal) : PyVal := if pd_isna v then PyVal.none else v

/-- The cleanup loop applied to a whole record (lines 180 to 183 of the
query module, and its twins in the two filtered queries). -/
def cleanRec (r : PyRec) : PyRec :=
  ⟨cleanVal r.datetime, cleanVal r.lat, cleanVal r.lon, cleanVal r.mld⟩

/-- The response envelope built by OceanDataQuery._format_response.
The optional metadata member is omitted (no claim concerns it). -/
structure Envelope (α : Type) where
  success : Bool
  timestamp : String
  message : String
  data : α

/-- _format_response. -/
def format_response (now : String) (data : α) (success : Bool) (message : String) :
    Envelope α :=
  ⟨success, now, message, data⟩

/-- OceanDataQuery._connect, called by the constructor: executes the
SELECT 1 liveness probe and wraps any failure in the custom
OceanDataQueryError, which propagates out of the constructor. -/
def connect (db : Db) : Except String Unit :=
  match db.fail with
  | Option.some m => Except.error ("Failed to connect to database: " ++ m)
  | Option.none => Except.ok ()

/-- OceanDataQuery._validate_coordinates: raises on an invalid latitude
range, then on an invalid longitude range (the chained Python comparison
-90 <= min_lat <= max_lat <= 90 and its longitude twin).  The interpolated
tuple of the Python message is elided. -/
def validate_coordinates (lat_range lon_range : Rat × Rat) : Except String Unit :=
  if ¬ (-90 ≤ lat_range.1 ∧ lat_range.1 ≤ lat_range.2 ∧ lat_range.2 ≤ 90) then
    Except.error "Invalid latitude range. Must be between -90 and 90"
  else if ¬ (-180 ≤ lon_range.1 ∧ lon_range.1 ≤ lon_range.2 ∧ lon_range.2 ≤ 180) then
    Except.error "Invalid longitude range. Must be between -180 and 180"
  else Except.ok ()

/-- A date argument of query_by_date_range: either a string, parsed with
strptime and the format %Y-%m-%d, or a datetime.date object. -/
inductive DateInput where
  | str (s : String)
  | date (y m d : Nat)
deriving DecidableEq

/-- Decimal digit test. -/
def isDigit (c : Char) : Bool := decide ('0' ≤ c ∧ c ≤ '9')

/-- Value of a list of decimal digits. -/
def digitsToNat (cs : List Char) : Nat :=
  cs.foldl (fun n c => 10 * n + (c.toNat - 48)) 0

/-- Gregorian leap-year test, as datetime applies it. -/
def isLeap (y : Nat) : Bool := y % 4 == 0 && (y % 100 != 0 || y % 400 == 0)

/-- Length of a month, as the datetime constructor validates the day. -/
def daysInMonth (y m : Nat) : Nat :=
  if m = 2 then (if isLeap y then 29 else 28)
  else if m = 4 ∨ m = 6 ∨ m = 9 ∨ m = 11 then 30
  else 31

/-- Split a character list on the dash separator. -/
def splitOnDash : List Char → List (List Char)
  | [] => [[]]
  | c :: cs =>
    if c = '-' then [] :: splitOnDash cs
    else
      match splitOnDash cs with
      | [] => [[c]]
      | g :: gs => (c :: g) :: gs

/-- datetime.strptime(s, %Y-%m-%d): a four-digit year, a one- or two-digit
month in 1..12 and a one- or two-digit day, the whole string consumed, and
the datetime constructor then requiring year at least 1 and the day to fit
the month.  On failure it raises ValueError; the exact CPython message text
is abstracted to one fixed description of the mismatch. -/
def strptime_Ymd (s : String) : Except String (Nat × Nat × Nat) :=
  match splitOnDash s.data with
  | [ys, ms, ds] =>
    if ys.length = 4 ∧ ys.all isDigit
        ∧ (ms.length = 1 ∨ ms.length = 2) ∧ ms.all isDigit
        ∧ (ds.length = 1 ∨ ds.length = 2) ∧ ds.all isDigit then
      let y := digitsToNat ys
      let m := digitsToNat ms
      let d := digitsToNat ds
      if 1 ≤ y ∧ 1 ≤ m ∧ m ≤ 12 ∧ 1 ≤ d ∧ d ≤ daysInMonth y m then
        Except.ok (y, m, d)
      else Except.error ("time data " ++ s ++ " does not match format %Y-%m-%d")
    else Except.error ("time data " ++ s ++ " does not match format %Y-%m-%d")
  | _ => Except.error ("time data " ++ s ++ " does not match format %Y-%m-%d")

/-- Decimal digit character. -/
def digitChar (n : Nat) : Char :=
  match n % 10 with
  | 0 => '0'
  | 1 => '1'
  | 2 => '2'
  | 3 => '3'
  | 4 => '4'
  | 5 => '5'
  | 6 => '6'
  | 7 => '7'
  | 8 => '8'
  | _ => '9'

/-- Two-digit zero-padded rendering. -/
def pad2 (n : Nat) : List Char := [digitChar (n / 10), digitChar n]

/-- Four-digit zero-padded rendering. -/
def pad4 (n : Nat) : List Char :=
  [digitChar (n / 1000), digitChar (n / 100), digitChar (n / 10), digitChar n]

/-- date.strftime(%Y-%m-%d). -/
def strftime_Ymd (y m d : Nat) : String :=
  String.mk (pad4 y ++ [ '-'] ++ pad2 m ++ [ '-'] ++ pad2 d)

/-- Strict lexicographic comparison of two dates, as Python compares the
two datetime objects built by _validate_dates. -/
def dateLtB (a b : Nat × Nat × Nat) : Bool :=
  decide (a.1 < b.1 ∨ (a.1 = b.1 ∧ (a.2.1 < b.2.1 ∨ (a.2.1 = b.2.1 ∧ a.2.2 < b.2.2))))

/-- One branch of _validate_dates: a string argument goes through strptime
and is kept verbatim; a date object always formats successfully. -/
def parse_date_input : DateInput → Except String ((Nat × Nat × Nat) × String)
  | DateInput.str s => (strptime_Ymd s).map (fun ymd => (ymd, s))
  | DateInput.date y m d => Except.ok ((y, m, d), strftime_Ymd y m d)

/-- OceanDataQuery._validate_dates: parse both arguments (a ValueError from
strptime is re-raised as the custom error with the prefix Invalid date
format), then reject start strictly after end.  The order error is raised
as the custom error directly and is not wrapped by the ValueError handler. -/
def validate_dates (start_date end_date : DateInput) : Except String (String × String) :=
  match parse_date_input start_date with
  | Except.error e => Except.error ("Invalid date format: " ++ e)
  | Except.ok (start_dt, start_str) =>
    match parse_date_input end_date with
    | Except.error e => Except.error ("Invalid date format: " ++ e)
    | Except.ok (end_dt, end_str) =>
      if dateLtB end_dt start_dt then
        Except.error ("Start date " ++ start_str ++ " must be before end date " ++ end_str)
      else Except.ok (start_str, end_str)

/-- The ORDER BY datetime relation on rows.  It reads nothing but the
datetime column: there is no secondary sort key. -/
def rowLe (a b : Row) : Prop := dtLe a.datetime b.datetime = true

instance : DecidableRel rowLe :=
  fun a b => inferInstanceAs (Decidable (dtLe a.datetime b.datetime = true))

/-- WHERE lat BETWEEN min AND max AND lon BETWEEN min AND max: a NULL cell
makes the SQL predicate not true, so the row is dropped. -/
def locPred (lat_range lon_range : Rat × Rat) (r : Row) : Bool :=
  (match r.lat with
   | Option.some v => decide (lat_range.1 ≤ v ∧ v ≤ lat_range.2)
   | Option.none => false)
  && (match r.lon with
   | Option.some v => decide (lon_range.1 ≤ v ∧ v ≤ lon_range.2)
   | Option.none => false)

/-- WHERE datetime >= start AND datetime <= end on a text column. -/
def datePred (start_str end_str : String) (r : Row) : Bool :=
  match r.datetime with
  | Option.some s => strLe start_str s && strLe s end_str
  | Option.none => false

/-- Body of the try block of get_sample_data: validate the limit, run
SELECT * ORDER BY datetime LIMIT n, materialise the rows and clean NaN. -/
def get_sample_data_body (db : Db) (limit : Int) : Except String (List PyRec) :=
  if limit ≤ 0 ∨ limit > 1000 then Except.error "Limit must be between 1 and 1000"
  else
    match runSql db (fun t => (List.insertionSort rowLe t).take limit.toNat) with
    | Except.error e => Except.error e
    | Except.ok rows => Except.ok (rows.map (fun r => cleanRec (readRow r)))

/-- OceanDataQuery.get_sample_data.  The default limit of the source is 5. -/
def get_sample_data (db : Db) (now : String) (limit : Int := 5) : Envelope (List PyRec) :=
  match get_sample_data_body db limit with
  | Except.ok records =>
      format_response now records true
        ("Retrieved " ++ toString records.length ++ " sample records")
  | Except.error e =>
      format_response now [] false ("Error retrieving sample data: " ++ e)

/-- Payload of get_data_count. -/
structure CountData where
  total_records : Nat
deriving DecidableEq

/-- OceanDataQuery.get_data_count: SELECT COUNT(*). -/
def get_data_count (db : Db) (now : String) : Envelope CountData :=
  match runSql db (fun t => t.length) with
  | Except.ok count =>
      format_response now ⟨count⟩ true
        ("Total records in argo_data: " ++ toString count)
  | Except.error e =>
      format_response now ⟨0⟩ false ("Error counting records: " ++ e)

/-- Body of the try block of query_by_location: validate coordinates, then
the limit, then run the filtered, ordered, limited SELECT and clean NaN. -/
def query_by_location_body (db : Db) (lat_range lon_range : Rat × Rat) (limit : Int) :
    Except String (List PyRec) :=
  match validate_coordinates lat_range lon_range with
  | Except.error e => Except.error e
  | Except.ok _ =>
    if limit ≤ 0 ∨ limit > 10000 then Except.error "Limit must be between 1 and 10,000"
    else
      match runSql db (fun t =>
          (List.insertionSort rowLe (t.filter (locPred lat_range lon_range))).take
            limit.toNat) with
      | Except.error e => Except.error e
      | Except.ok rows => Except.ok (rows.map (fun r => cleanRec (readRow r)))

/-- OceanDataQuery.query_by_location.  The default limit of the source is 100. -/
def query_by_location (db : Db) (now : String) (lat_range lon_range : Rat × Rat)
    (limit : Int := 100) : Envelope (List PyRec) :=
  match query_by_location_body db lat_range lon_range limit with
  | Except.ok records =>
      format_response now records true
        ("Retrieved " ++ toString records.length ++ " records for location query")
  | Except.error e =>
      format_response now [] false ("Error querying by location: " ++ e)

/-- Body of the try block of query_by_date_range: validate and normalise the
dates, then the limit, then run the filtered, ordered, limited SELECT. -/
def query_by_date_range_body (db : Db) (start_date end_date : DateInput) (limit : Int) :
    Except String (List PyRec) :=
  match validate_dates start_date end_date with
  | Except.error e => Except.error e
  | Except.ok (start_str, end_str) =>
    if limit ≤ 0 ∨ limit > 10000 then Except.error "Limit must be between 1 and 10,000"
    else
      match runSql db (fun t =>
          (List.insertionSort rowLe (t.filter (datePred start_str end_str))).take
            limit.toNat) with
      | Except.error e => Except.error e
      | Except.ok rows => Except.ok (rows.map (fun r => cleanRec (readRow r)))

/-- OceanDataQuery.query_by_date_range.  The default limit of the source is 100. -/
def query_by_date_range (db : Db) (now : String) (start_date end_date : DateInput)
    (limit : Int := 100) : Envelope (List PyRec) :=
  match query_by_date_range_body db start_date end_date limit with
  | Except.ok records =>
      format_response now records true
        ("Retrieved " ++ toString records.length ++ " records for date range")
  | Except.error e =>
      format_response now [] false ("Error querying by date range: " ++ e)

/-- SQL MIN over a numeric column: NULL when no value. -/
def minimumRat : List Rat → Option Rat
  | [] => Option.none
  | a :: as => Option.some (as.foldl min a)

/-- SQL MAX over a numeric column: NULL when no value. -/
def maximumRat : List Rat → Option Rat
  | [] => Option.none
  | a :: as => Option.some (as.foldl max a)

/-- SQL MIN over a text column, by the text ordering. -/
def minimumStr : List String → Option String
  | [] => Option.none
  | a :: as => Option.some (as.foldl (fun x y => if strLe x y then x else y) a)

/-- SQL MAX over a text column, by the text ordering. -/
def maximumStr : List String → Option String
  | [] => Option.none
  | a :: as => Option.some (as.foldl (fun x y => if strLe x y then y else x) a)

/-- Sum of a list of rationals, for SQL AVG. -/
def sumRat (l : List Rat) : Rat := l.foldl (fun x y => x + y) 0

/-- The rows the first summary query ranges over:
FROM argo_data WHERE mld IS NOT NULL. -/
def mldFiltered (t : List Row) : List Row := t.filter (fun r => r.mld.isSome)

/-- The eleven selected columns of the first summary query, in source
order, with SQL aggregate semantics: COUNT(*) counts the filtered rows,
MIN/MAX/AVG ignore NULL cells and are NULL on no value, and
COUNT(DISTINCT datetime) counts distinct non-NULL datetimes. -/
structure SummaryRow where
  total_records : Nat
  min_latitude : Option Rat
  max_latitude : Option Rat
  min_longitude : Option Rat
  max_longitude : Option Rat
  earliest_date : Option String
  latest_date : Option String
  avg_mixed_layer_depth : Option Rat
  min_mixed_layer_depth : Option Rat
  max_mixed_layer_depth : Option Rat
  unique_dates : Nat
deriving DecidableEq

/-- Result row of the first summary query on a given table. -/
def summaryRowOf (t : List Row) : SummaryRow :=
  let f := mldFiltered t
  let lats := f.filterMap Row.lat
  let lons := f.filterMap Row.lon
  let mlds := f.filterMap Row.mld
  let dts := f.filterMap Row.datetime
  { total_records := f.length
    min_latitude := minimumRat lats
    max_latitude := maximumRat lats
    min_longitude := minimumRat lons
    max_longitude := maximumRat lons
    earliest_date := minimumStr dts
    latest_date := maximumStr dts
    avg_mixed_layer_depth :=
      if mlds.length = 0 then Option.none
      else Option.some (sumRat mlds / (mlds.length : Rat))
    min_mixed_layer_depth := minimumRat mlds
    max_mixed_layer_depth := maximumRat mlds
    unique_dates := dts.dedup.length }

/-- EXTRACT(YEAR ...), EXTRACT(MONTH ...) of the datetime::date cast of a
row.  A NULL datetime yields a NULL year and month group.  The cast of
malformed text would abort the whole query in PostgreSQL; the model maps
such a cell to the NULL group as well, which only widens the set of
behaviours the temporal theorems cover. -/
def extractYM (r : Row) : Option (Nat × Nat) :=
  match r.datetime with
  | Option.none => Option.none
  | Option.some s =>
    match strptime_Ymd s with
    | Except.ok (y, m, _) => Option.some (y, m)
    | Except.error _ => Option.none

/-- ORDER BY year, month ascending on the grouped keys, NULLS LAST. -/
def keyLe (a b : Option (Nat × Nat)) : Bool :=
  match a, b with
  | _, Option.none => true
  | Option.none, Option.some _ => false
  | Option.some x, Option.some y => decide (x.1 < y.1 ∨ (x.1 = y.1 ∧ x.2 ≤ y.2))

/-- The grouped-key ordering lifted to key-and-count pairs. -/
def tdKeyLe (a b : Option (Nat × Nat) × Nat) : Prop := keyLe a.1 b.1 = true

instance : DecidableRel tdKeyLe :=
  fun a b => inferInstanceAs (Decidable (keyLe a.1 b.1 = true))

/-- The second summary query: row counts grouped by year and month of the
datetime, ordered chronologically, LIMIT 12. -/
def temporal_groups (t : List Row) : List (Option (Nat × Nat) × Nat) :=
  let keys := (t.map extractYM).dedup
  let grouped := keys.map (fun k => (k, t.countP (fun r => extractYM r = k)))
  (List.insertionSort tdKeyLe grouped).take 12

/-- One record of temporal_distribution, as pandas materialises a group
row: a NULL year or month group comes back as the NaN sentinel, and
get_data_summary applies no NaN cleanup to this list. -/
structure TemporalRec where
  year : PyVal
  month : PyVal
  record_count : PyVal
deriving DecidableEq

/-- pandas materialisation of one group row of the temporal query. -/
def temporalRecOf (g : Option (Nat × Nat) × Nat) : TemporalRec :=
  match g.1 with
  | Option.some (y, m) => ⟨PyVal.num (y : Rat), PyVal.num (m : Rat), PyVal.num (g.2 : Rat)⟩
  | Option.none => ⟨PyVal.nan, PyVal.nan, PyVal.num (g.2 : Rat)⟩

/-- Python truthiness formatting of an optional numeric aggregate:
float(x) if x else None maps both None and 0 to None. -/
def truthyRat (o : Option Rat) : Option Rat :=
  match o with
  | Option.none => Option.none
  | Option.some q => if q = 0 then Option.none else Option.some q

/-- Python truthiness formatting of an optional text aggregate:
str(x) if x else None maps both None and the empty string to None. -/
def truthyStr (o : Option String) : Option String :=
  match o with
  | Option.none => Option.none
  | Option.some s => if s = "" then Option.none else Option.some s

/-- Python truthiness formatting of a count: int(x) if x else 0. -/
def truthyNat (n : Nat) : Nat := if n = 0 then 0 else n

/-- The summary payload, the flattened shape built at lines 421 to 446 of
the query module: dataset_overview, geographic_extent,
mixed_layer_depth_stats and temporal_distribution. -/
structure SummaryData where
  total_records : Nat
  unique_dates : Nat
  earliest : Option String
  latest : Option String
  lat_min : Option Rat
  lat_max : Option Rat
  lon_min : Option Rat
  lon_max : Option Rat
  mld_average : Option Rat
  mld_minimum : Option Rat
  mld_maximum : Option Rat
  temporal_distribution : List TemporalRec
deriving DecidableEq

/-- The summary payload computed from a table: each field of the first
query formatted by Python truthiness, plus the temporal list. -/
def summaryDataOf (t : List Row) : SummaryData :=
  let s := summaryRowOf t
  { total_records := truthyNat s.total_records
    unique_dates := truthyNat s.unique_dates
    earliest := truthyStr s.earliest_date
    latest := truthyStr s.latest_date
    lat_min := truthyRat s.min_latitude
    lat_max := truthyRat s.max_latitude
    lon_min := truthyRat s.min_longitude
    lon_max := truthyRat s.max_longitude
    mld_average := truthyRat s.avg_mixed_layer_depth
    mld_minimum := truthyRat s.min_mixed_layer_depth
    mld_maximum := truthyRat s.max_mixed_layer_depth
    temporal_distribution := (temporal_groups t).map temporalRecOf }

/-- OceanDataQuery.get_data_summary.  Both round-trips go through the same
engine; an infrastructure failure raises on the first and the handler
returns the error envelope with the empty data object, modelled as none. -/
def get_data_summary (db : Db) (now : String) : Envelope (Option SummaryData) :=
  match runSql db summaryDataOf with
  | Except.ok s =>
      format_response now (Option.some s) true "Dataset summary generated successfully"
  | Except.error e =>
      format_response now Option.none false ("Error generating data summary: " ++ e)

/-- Filesystem: maps a path to the rows of the CSV file there, when the
file exists. -/
def Fs : Type := String → Option (List Row)

/-- load_argo_data of src/load_data.py: returns False without touching the
table when the file does not exist; otherwise reads the whole CSV and
writes it with if_exists=replace.  A raising engine makes to_sql fail,
which is caught and reported as False. -/
def load_argo_data (fs : Fs) (csv_file_path : String) (db : Db) : Bool × Db :=
  match fs csv_file_path with
  | Option.none => (false, db)
  | Option.some rows =>
    match db.fail with
    | Option.some _ => (false, db)
    | Option.none => (true, { db with table := rows })

/-- The first SQL text get_data_summary builds, with the table name
interpolated (whitespace normalised to single spaces). -/
def summary_sql (table_name : String) : String :=
  "SELECT COUNT(*) as total_records, MIN(lat) as min_latitude, " ++
  "MAX(lat) as max_latitude, MIN(lon) as min_longitude, " ++
  "MAX(lon) as max_longitude, MIN(datetime) as earliest_date, " ++
  "MAX(datetime) as latest_date, AVG(mld) as avg_mixed_layer_depth, " ++
  "MIN(mld) as min_mixed_layer_depth, MAX(mld) as max_mixed_layer_depth, " ++
  "COUNT(DISTINCT datetime) as unique_dates FROM " ++ table_name ++
  " WHERE mld IS NOT NULL"

/-- The second SQL text get_data_summary builds. -/
def temporal_sql (table_name : String) : String :=
  "SELECT EXTRACT(YEAR FROM datetime::date) as year, " ++
  "EXTRACT(MONTH FROM datetime::date) as month, COUNT(*) as record_count FROM " ++
  table_name ++
  " GROUP BY EXTRACT(YEAR FROM datetime::date), EXTRACT(MONTH FROM datetime::date)" ++
  " ORDER BY year, month LIMIT 12"

/-- The SQL statements one call of get_data_summary sends to the engine,
in execution order. -/
def get_data_summary_queries (table_name : String) : List String :=
  [summary_sql table_name, temporal_sql table_name]

/-- Ordering on returned records induced by the datetime field after NaN
cleanup: records with a null datetime sort last, text datetimes by the
text ordering, matching ORDER BY datetime ascending. -/
def outDtLe (a b : PyRec) : Prop :=
  match a.datetime, b.datetime with
  | _, PyVal.none => True
  | PyVal.str x, PyVal.str y => strLe x y = true
  | _, _ => False

/-- Chronological ordering on temporal_distribution records: by year then
month, with the NULL (NaN) group last. -/
def tRecLe (a b : TemporalRec) : Prop :=
  match a.year, a.month, b.year, b.month with
  | _, _, PyVal.nan, PyVal.nan => True
  | PyVal.num y1, PyVal.num m1, PyVal.num y2, PyVal.num m2 =>
      y1 < y2 ∨ (y1 = y2 ∧ m1 ≤ m2)
  | _, _, _, _ => False

/-- Table of one row whose latitude is exactly 0 and whose mld is present:
the zero aggregate exercises the Python truthiness formatting. -/
def dbC3 : Db :=
  ⟨[⟨Option.some "2019-01-01", Option.some 0, Option.some 5, Option.some 10⟩],
    Option.none⟩

/-- One well-formed observation row for concrete witnesses. -/
def rowW : Row :=
  ⟨Option.some "2019-01-29", Option.some 5, Option.some 70, Option.some 10⟩

/-- Witness filesystem: one CSV file of one row. -/
def fsW : Fs :=
  fun p => if p = "ARGO_2019.csv" then Option.some [rowW] else Option.none

/-- Witness table with one null-mld row and one complete row. -/
def tblW : List Row :=
  [⟨Option.some "2019-01-01", Option.some 1, Option.some 2, Option.none⟩, rowW]

theorem charsLe_total : ∀ a b : List Char, charsLe a b = true ∨ charsLe b a = true := by
  intro a
  induction a with
  | nil => intro b; left; cases b <;> rfl
  | cons c cs ih =>
    intro b
    cases b with
    | nil => right; rfl
    | cons d ds =>
      rcases Nat.lt_trichotomy c.toNat d.toNat with h | h | h
      · left; simp [charsLe, h]
      · rcases ih ds with h2 | h2
        · left; simp [charsLe, h, h2]
        · right; simp [charsLe, h.symm, h2]
      · right; simp [charsLe, h]

theorem charsLe_trans : ∀ a b c : List Char,
    charsLe a b = true → charsLe b c = true → charsLe a c = true := by
  intro a
  induction a with
  | nil => intro b c _ _; cases c <;> rfl
  | cons x xs ih =>
    intro b c hab hbc
    cases b with
    | nil => simp [charsLe] at hab
    | cons y ys =>
      cases c with
      | nil => simp [charsLe] at hbc
      | cons z zs =>
        simp only [charsLe] at hab hbc ⊢
        by_cases h1 : x.toNat < y.toNat
        · by_cases h2 : y.toNat < z.toNat
          · simp [Nat.lt_trans h1 h2]
          · by_cases h4 : z.toNat < y.toNat
            · simp [h2, h4] at hbc
            · have he : y.toNat = z.toNat := by omega
              simp [he ▸ h1]
        · by_cases h4 : y.toNat < x.toNat
          · simp [h1, h4] at hab
          · have he : x.toNat = y.toNat := by omega
            have hxs : charsLe xs ys = true := by simpa [h1, h4] using hab
            by_cases h2 : y.toNat < z.toNat
            · simp [he ▸ h2]
            · by_cases h5 : z.toNat < y.toNat
              · simp [h2, h5] at hbc
              · have he2 : y.toNat = z.toNat := by omega
                have hys : charsLe ys zs = true := by simpa [h2, h5] using hbc
                have h3 : ¬ x.toNat < z.toNat := by omega
                have h6 : ¬ z.toNat < x.toNat := by omega
                simp [h3, h6, ih ys zs hxs hys]

theorem strLe_total (a b : String) : strLe a b = true ∨ strLe b a = true :=
  charsLe_total a.data b.data

theorem strLe_trans {a b c : String} (h1 : strLe a b = true) (h2 : strLe b c = true) :
    strLe a c = true :=
  charsLe_trans a.data b.data c.data h1 h2

theorem dtLe_total : ∀ a b : Option String, dtLe a b = true ∨ dtLe b a = true := by
  intro a b
  cases a with
  | none =>
    cases b with
    | none => left; rfl
    | some t => right; rfl
  | some s =>
    cases b with
    | none => left; rfl
    | some t => exact strLe_total s t

theorem dtLe_trans : ∀ a b c : Option String,
    dtLe a b = true → dtLe b c = true → dtLe a c = true := by
  intro a b c hab hbc
  cases a with
  | none =>
    cases c with
    | none => rfl
    | some t =>
      cases b with
      | none => simp [dtLe] at hbc
      | some u => simp [dtLe] at hab
  | some s =>
    cases c with
    | none => rfl
    | some t =>
      cases b with
      | none => simp [dtLe] at hbc
      | some u => exact strLe_trans hab hbc

instance : IsTotal Row rowLe := ⟨fun a b => dtLe_total a.datetime b.datetime⟩

instance : IsTrans Row rowLe :=
  ⟨fun a b c => dtLe_trans a.datetime b.datetime c.datetime⟩

theorem keyLe_total : ∀ a b : Option (Nat × Nat), keyLe a b = true ∨ keyLe b a = true := by
  intro a b
  cases a with
  | none =>
    cases b with
    | none => left; rfl
    | some y => right; rfl
  | some x =>
    cases b with
    | none => left; rfl
    | some y =>
      simp only [keyLe, decide_eq_true_eq]
      omega

theorem keyLe_trans : ∀ a b c : Option (Nat × Nat),
    keyLe a b = true → keyLe b c = true → keyLe a c = true := by
  intro a b c hab hbc
  cases a with
  | none =>
    cases c with
    | none => rfl
    | some z =>
      cases b with
      | none => simp [keyLe] at hbc
      | some y => simp [keyLe] at hab
  | some x =>
    cases c with
    | none => rfl
    | some z =>
      cases b with
      | none => simp [keyLe] at hbc
      | some y =>
        simp only [keyLe, decide_eq_true_eq] at hab hbc ⊢
        omega

instance : IsTotal (Option (Nat × Nat) × Nat) tdKeyLe := ⟨fun a b => keyLe_total a.1 b.1⟩

instance : IsTrans (Option (Nat × Nat) × Nat) tdKeyLe :=
  ⟨fun a b c => keyLe_trans a.1 b.1 c.1⟩

theorem outDtLe_of_rowLe (a b : Row) (h : rowLe a b) :
    outDtLe (cleanRec (readRow a)) (cleanRec (readRow b)) := by
  have h2 : dtLe a.datetime b.datetime = true := h
  cases ha : a.datetime with
  | none =>
    cases hb : b.datetime with
    | none => simp [outDtLe, cleanRec, readRow, pyOfOptStr, cleanVal, pd_isna, ha, hb]
    | some t =>
      rw [ha, hb] at h2
      simp [dtLe] at h2
  | some s =>
    cases hb : b.datetime with
    | none => simp [outDtLe, cleanRec, readRow, pyOfOptStr, cleanVal, pd_isna, ha, hb]
    | some t =>
      rw [ha, hb] at h2
      simpa [outDtLe, cleanRec, readRow, pyOfOptStr, cleanVal, pd_isna, ha, hb] using h2

/-- The record list built from any sorted-and-limited row set is pairwise
ordered by datetime. -/
theorem pairwise_out_of_sorted (l : List Row) (n : Nat) :
    List.Pairwise outDtLe
      (((List.insertionSort rowLe l).take n).map (fun r => cleanRec (readRow r))) := by
  have hs : List.Sorted rowLe (List.insertionSort rowLe l) :=
    List.sorted_insertionSort rowLe l
  have ht : List.Pairwise rowLe ((List.insertionSort rowLe l).take n) :=
    List.Pairwise.sublist (List.take_sublist n _) hs
  exact List.Pairwise.map _ (fun a b h => outDtLe_of_rowLe a b h) ht

theorem truthyNat_eq (n : Nat) : truthyNat n = n := by
  unfold truthyNat
  split <;> omega

theorem dateLtB_irrefl (a : Nat × Nat × Nat) : dateLtB a a = false := by
  simp [dateLtB]

theorem validate_coordinates_ok_iff (minLat maxLat minLon maxLon : Rat) :
    validate_coordinates (minLat, maxLat) (minLon, maxLon) = Except.ok () ↔
      (-90 ≤ minLat ∧ minLat ≤ maxLat ∧ maxLat ≤ 90 ∧
        -180 ≤ minLon ∧ minLon ≤ maxLon ∧ maxLon ≤ 180) := by
  unfold validate_coordinates
  by_cases h1 : -90 ≤ minLat ∧ minLat ≤ maxLat ∧ maxLat ≤ 90
  · by_cases h2 : -180 ≤ minLon ∧ minLon ≤ maxLon ∧ maxLon ≤ 180
    · simp [h1, h2]
    · simp [h1, h2]
  · simp [h1]
    tauto

theorem get_sample_data_body_ok {db : Db} {limit : Int} {recs : List PyRec}
    (h : get_sample_data_body db limit = Except.ok recs) :
    recs = ((List.insertionSort rowLe db.table).take limit.toNat).map
        (fun r => cleanRec (readRow r)) ∧
      db.fail = Option.none ∧ ¬ (limit ≤ 0 ∨ limit > 1000) := by
  unfold get_sample_data_body at h
  by_cases hc : limit ≤ 0 ∨ limit > 1000
  · rw [if_pos hc] at h
    cases h
  · rw [if_neg hc] at h
    rcases db with ⟨tbl, fail⟩
    cases fail with
    | some m => simp [runSql] at h
    | none =>
      simp only [runSql] at h
      injection h with h2
      exact ⟨h2.symm, rfl, hc⟩

theorem query_by_location_body_ok {db : Db} {latr lonr : Rat × Rat} {limit : Int}
    {recs : List PyRec}
    (h : query_by_location_body db latr lonr limit = Except.ok recs) :
    recs = ((List.insertionSort rowLe (db.table.filter (locPred latr lonr))).take
        limit.toNat).map (fun r => cleanRec (readRow r)) ∧
      db.fail = Option.none ∧ validate_coordinates latr lonr = Except.ok () ∧
      ¬ (limit ≤ 0 ∨ limit > 10000) := by
  unfold query_by_location_body at h
  cases hv : validate_coordinates latr lonr with
  | error e => rw [hv] at h; cases h
  | ok u =>
    cases u
    rw [hv] at h
    by_cases hc : limit ≤ 0 ∨ limit > 10000
    · rw [if_pos hc] at h
      cases h
    · rw [if_neg hc] at h
      rcases db with ⟨tbl, fail⟩
      cases fail with
      | some m => simp [runSql] at h
      | none =>
        simp only [runSql] at h
        injection h with h2
        exact ⟨h2.symm, rfl, rfl, hc⟩

theorem query_by_date_range_body_ok {db : Db} {sdt edt : DateInput} {limit : Int}
    {recs : List PyRec}
    (h : query_by_date_range_body db sdt edt limit = Except.ok recs) :
    ∃ start_str end_str, validate_dates sdt edt = Except.ok (start_str, end_str) ∧
      recs = ((List.insertionSort rowLe
          (db.table.filter (datePred start_str end_str))).take limit.toNat).map
        (fun r => cleanRec (readRow r)) ∧
      db.fail = Option.none ∧ ¬ (limit ≤ 0 ∨ limit > 10000) := by
  unfold query_by_date_range_body at h
  cases hv : validate_dates sdt edt with
  | error e => rw [hv] at h; cases h
  | ok p =>
    rcases p with ⟨sstr, estr⟩
    rw [hv] at h
    dsimp only at h
    by_cases hc : limit ≤ 0 ∨ limit > 10000
    · rw [if_pos hc] at h
      cases h
    · rw [if_neg hc] at h
      rcases db with ⟨tbl, fail⟩
      cases fail with
      | some m => simp [runSql] at h
      | none =>
        simp only [runSql] at h
        injection h with h2
        exact ⟨sstr, estr, rfl, h2.symm, rfl, hc⟩

theorem tRecLe_of_keyLe (a b : Option (Nat × Nat) × Nat) (h : tdKeyLe a b) :
    tRecLe (temporalRecOf a) (temporalRecOf b) := by
  have h2 : keyLe a.1 b.1 = true := h
  cases ha : a.1 with
  | none =>
    cases hb : b.1 with
    | none => simp [temporalRecOf, ha, hb, tRecLe]
    | some y =>
      rw [ha, hb] at h2
      simp [keyLe] at h2
  | some x =>
    cases hb : b.1 with
    | none =>
      rcases x with ⟨y1, m1⟩
      simp [temporalRecOf, ha, hb, tRecLe]
    | some y =>
      rw [ha, hb] at h2
      rcases x with ⟨y1, m1⟩
      rcases y with ⟨y2, m2⟩
      simp only [keyLe, decide_eq_true_eq] at h2
      simp only [temporalRecOf, ha, hb, tRecLe]
      rcases h2 with h3 | ⟨he, hm⟩
      · left
        exact_mod_cast h3
      · right
        exact ⟨by exact_mod_cast he, by exact_mod_cast hm⟩


/-- C4: for every limit outside [1, 1000], get_sample_data returns an
envelope with success=false and data=[]; for every limit in [1, 1000] the
limit validation raises no error (with a working engine the call reports
success) and the returned record list has at most limit entries. -/
theorem C4_sample_limit (db : Db) (now : String) (limit : Int) :
    ((limit < 1 ∨ 1000 < limit) →
      (get_sample_data db now limit).success = false ∧
        (get_sample_data db now limit).data = []) ∧
    (1 ≤ limit → limit ≤ 1000 →
      (db.fail = Option.none → (get_sample_data db now limit).success = true) ∧
        ((get_sample_data db now limit).data.length ≤ limit.toNat)) := by
  constructor
  · intro h
    have hcond : limit ≤ 0 ∨ limit > 1000 := by omega
    simp [get_sample_data, get_sample_data_body, hcond, format_response]
  · intro h1 h2
    have hcond : ¬ (limit ≤ 0 ∨ limit > 1000) := by omega
    rcases db with ⟨tbl, fail⟩
    constructor
    · intro hf
      obtain rfl : fail = Option.none := hf
      simp [get_sample_data, get_sample_data_body, hcond, runSql, format_response]
    · cases fail with
      | some m =>
        simp [get_sample_data, get_sample_data_body, hcond, runSql, format_response]
      | none =>
        have hdata : (get_sample_data ⟨tbl, Option.none⟩ now limit).data =
            ((List.insertionSort rowLe tbl).take limit.toNat).map
              (fun r => cleanRec (readRow r)) := by
          simp [get_sample_data, get_sample_data_body, hcond, runSql, format_response]
        rw [hdata]
        simp only [List.length_map, List.length_take]
        exact Nat.min_le_left _ _

/-- C4 witness: limit 0 is rejected with the error envelope, and limit 5 on
a working one-row table succeeds with at most 5 records. -/
theorem C4_sample_limit_witness :
    ((get_sample_data ⟨[rowW], Option.none⟩ "t" 0).success = false ∧
      (get_sample_data ⟨[rowW], Option.none⟩ "t" 0).data = []) ∧
    ((get_sample_data ⟨[rowW], Option.none⟩ "t" 5).success = true ∧
      (get_sample_data ⟨[rowW], Option.none⟩ "t" 5).data.length ≤ (5 : Int).toNat) := by
  refine ⟨(C4_sample_limit ⟨[rowW], Option.none⟩ "t" 0).1 (by decide), ?_⟩
  have h := (C4_sample_limit ⟨[rowW], Option.none⟩ "t" 5).2 (by decide) (by decide)
  exact ⟨h.1 rfl, h.2⟩

/-- C1: with a failing engine every public query operation returns the
success=false envelope with empty or zeroed data and the exception text in
its message (for operations with input validation the engine text is
reached once validation passes; invalid inputs still yield the
success=false empty envelope, carrying the validation text instead); the
operations are total functions into the envelope type, so no exception
escapes them; construction is the sole exception: the SELECT 1 liveness
probe failure makes the constructor raise the wrapped custom error, and
with a working engine construction succeeds. -/
theorem C1_error_envelopes (tbl : List Row) (m now : String) :
    (∀ limit : Int,
      (get_sample_data ⟨tbl, Option.some m⟩ now limit).success = false ∧
      (get_sample_data ⟨tbl, Option.some m⟩ now limit).data = [] ∧
      (1 ≤ limit → limit ≤ 1000 →
        (get_sample_data ⟨tbl, Option.some m⟩ now limit).message =
          "Error retrieving sample data: " ++ m)) ∧
    ((get_data_count ⟨tbl, Option.some m⟩ now).success = false ∧
      (get_data_count ⟨tbl, Option.some m⟩ now).data = ⟨0⟩ ∧
      (get_data_count ⟨tbl, Option.some m⟩ now).message =
        "Error counting records: " ++ m) ∧
    (∀ latr lonr : Rat × Rat, ∀ limit : Int,
      (query_by_location ⟨tbl, Option.some m⟩ now latr lonr limit).success = false ∧
      (query_by_location ⟨tbl, Option.some m⟩ now latr lonr limit).data = [] ∧
      (validate_coordinates latr lonr = Except.ok () → 1 ≤ limit → limit ≤ 10000 →
        (query_by_location ⟨tbl, Option.some m⟩ now latr lonr limit).message =
          "Error querying by location: " ++ m)) ∧
    (∀ sdt edt : DateInput, ∀ limit : Int,
      (query_by_date_range ⟨tbl, Option.some m⟩ now sdt edt limit).success = false ∧
      (query_by_date_range ⟨tbl, Option.some m⟩ now sdt edt limit).data = [] ∧
      (∀ sstr estr, validate_dates sdt edt = Except.ok (sstr, estr) →
        1 ≤ limit → limit ≤ 10000 →
        (query_by_date_range ⟨tbl, Option.some m⟩ now sdt edt limit).message =
          "Error querying by date range: " ++ m)) ∧
    ((get_data_summary ⟨tbl, Option.some m⟩ now).success = false ∧
      (get_data_summary ⟨tbl, Option.some m⟩ now).data = Option.none ∧
      (get_data_summary ⟨tbl, Option.some m⟩ now).message =
        "Error generating data summary: " ++ m) ∧
    (connect ⟨tbl, Option.some m⟩ =
      Except.error ("Failed to connect to database: " ++ m)) ∧
    (connect ⟨tbl, Option.none⟩ = Except.ok ()) := by
  refine ⟨?_, ?_, ?_, ?_, ?_, rfl, rfl⟩
  · intro limit
    by_cases hc : limit ≤ 0 ∨ limit > 1000
    · refine ⟨?_, ?_, fun h1 h2 => absurd hc (by omega)⟩ <;>
        simp [get_sample_data, get_sample_data_body, hc, runSql, format_response]
    · refine ⟨?_, ?_, fun _ _ => ?_⟩ <;>
        simp [get_sample_data, get_sample_data_body, hc, runSql, format_response]
  · exact ⟨rfl, rfl, rfl⟩
  · intro latr lonr limit
    cases hv : validate_coordinates latr lonr with
    | error e =>
      refine ⟨?_, ?_, ?_⟩
      · simp [query_by_location, query_by_location_body, hv, format_response]
      · simp [query_by_location, query_by_location_body, hv, format_response]
      · intro hok
        cases hok
    | ok u =>
      cases u
      by_cases hc : limit ≤ 0 ∨ limit > 10000
      · refine ⟨?_, ?_, ?_⟩
        · simp [query_by_location, query_by_location_body, hv, hc, format_response]
        · simp [query_by_location, query_by_location_body, hv, hc, format_response]
        · intro _ h1 h2
          omega
      · refine ⟨?_, ?_, fun _ _ _ => ?_⟩ <;>
          simp [query_by_location, query_by_location_body, hv, hc, runSql,
            format_response]
  · intro sdt edt limit
    cases hv : validate_dates sdt edt with
    | error e =>
      refine ⟨?_, ?_, ?_⟩
      · simp [query_by_date_range, query_by_date_range_body, hv, format_response]
      · simp [query_by_date_range, query_by_date_range_body, hv, format_response]
      · intro sstr estr hok
        cases hok
    | ok p =>
      rcases p with ⟨sstr, estr⟩
      by_cases hc : limit ≤ 0 ∨ limit > 10000
      · refine ⟨?_, ?_, ?_⟩
        · simp [query_by_date_range, query_by_date_range_body, hv, hc, format_response]
        · simp [query_by_date_range, query_by_date_range_body, hv, hc, format_response]
        · intro _ _ _ h1 h2
          omega
      · refine ⟨?_, ?_, fun _ _ _ _ _ => ?_⟩ <;>
          simp [query_by_date_range, query_by_date_range_body, hv, hc, runSql,
            format_response]
  · exact ⟨rfl, rfl, rfl⟩

/-- C1 witness: the error envelopes and the raising constructor at a
concrete failing engine, and the succeeding constructor at a working one. -/
theorem C1_error_envelopes_witness :
    (get_sample_data ⟨[], Option.some "boom"⟩ "t" 5).success = false ∧
    (get_sample_data ⟨[], Option.some "boom"⟩ "t" 5).message =
      "Error retrieving sample data: " ++ "boom" ∧
    (query_by_location ⟨[], Option.some "boom"⟩ "t" (0, 1) (0, 1) 5).message =
      "Error querying by location: " ++ "boom" ∧
    (query_by_date_range ⟨[], Option.some "boom"⟩ "t" (DateInput.date 2020 1 1)
        (DateInput.date 2020 1 2) 5).message =
      "Error querying by date range: " ++ "boom" ∧
    connect ⟨[], Option.some "boom"⟩ =
      Except.error ("Failed to connect to database: " ++ "boom") ∧
    connect ⟨[], Option.none⟩ = Except.ok () := by
  have h := C1_error_envelopes [] "boom" "t"
  refine ⟨(h.1 5).1, (h.1 5).2.2 (by decide) (by decide), ?_, ?_,
    h.2.2.2.2.2.1, h.2.2.2.2.2.2⟩
  · exact (h.2.2.1 (0, 1) (0, 1) 5).2.2 (by decide) (by decide) (by decide)
  · exact (h.2.2.2.1 (DateInput.date 2020 1 1) (DateInput.date 2020 1 2) 5).2.2
      "2020-01-01" "2020-01-02" (by decide) (by decide) (by decide)

/-- C8: loading an existing CSV of N rows replaces the table and
get_data_count then reports total_records = N with success=true; a missing
file makes the loader return false without touching the database; and
get_data_count on an empty table reports 0 with success=true. -/
theorem C8_roundtrip (fs : Fs) (path : String) (tbl rows : List Row)
    (fl : Option String) (now : String) :
    (fs path = Option.some rows →
      (load_argo_data fs path ⟨tbl, Option.none⟩).1 = true ∧
      (load_argo_data fs path ⟨tbl, Option.none⟩).2.table = rows ∧
      (get_data_count (load_argo_data fs path ⟨tbl, Option.none⟩).2 now).success =
        true ∧
      (get_data_count (load_argo_data fs path ⟨tbl, Option.none⟩).2
          now).data.total_records = rows.length) ∧
    (fs path = Option.none → load_argo_data fs path ⟨tbl, fl⟩ = (false, ⟨tbl, fl⟩)) ∧
    ((get_data_count ⟨[], Option.none⟩ now).success = true ∧
      (get_data_count ⟨[], Option.none⟩ now).data.total_records = 0) := by
  refine ⟨?_, ?_, by simp [get_data_count, runSql, format_response]⟩
  · intro h
    simp [load_argo_data, h, get_data_count, runSql, format_response]
  · intro h
    simp [load_argo_data, h]

/-- C8 witness: a one-row CSV loads and counts to 1; a missing path loads
to false and leaves the database unchanged. -/
theorem C8_roundtrip_witness :
    ((load_argo_data fsW "ARGO_2019.csv" ⟨[], Option.none⟩).1 = true ∧
      (get_data_count (load_argo_data fsW "ARGO_2019.csv" ⟨[], Option.none⟩).2
          "t").data.total_records = [rowW].length) ∧
    load_argo_data fsW "missing.csv" ⟨[], Option.none⟩ = (false, ⟨[], Option.none⟩) := by
  have h1 := (C8_roundtrip fsW "ARGO_2019.csv" [] [rowW] Option.none "t").1 (by decide)
  have h2 := (C8_roundtrip fsW "missing.csv" [] [] Option.none "t").2.1 (by decide)
  exact ⟨⟨h1.1, h1.2.2.2⟩, h2⟩

/-- C10: the first summary query aggregates only over rows whose mld is
non-null (its result on any table equals its result on the mld-filtered
table), and whenever the table holds at least one null-mld row the summary
total_records is strictly below the get_data_count total. -/
theorem C10_summary_counts_filtered (tbl : List Row) (now : String)
    (h : ∃ r ∈ tbl, r.mld = Option.none) :
    summaryRowOf tbl = summaryRowOf (mldFiltered tbl) ∧
    (get_data_summary ⟨tbl, Option.none⟩ now).data = Option.some (summaryDataOf tbl) ∧
    (summaryDataOf tbl).total_records <
      (get_data_count ⟨tbl, Option.none⟩ now).data.total_records := by
  refine ⟨?_, by simp [get_data_summary, runSql, format_response], ?_⟩
  · unfold summaryRowOf
    have hff : mldFiltered (mldFiltered tbl) = mldFiltered tbl := by
      simp [mldFiltered, List.filter_filter]
    rw [hff]
  · have hlt : (mldFiltered tbl).length < tbl.length := by
      apply List.length_filter_lt_length_iff_exists.mpr
      rcases h with ⟨r, hr, hmld⟩
      exact ⟨r, hr, by simp [hmld]⟩
    have hc : (get_data_count ⟨tbl, Option.none⟩ now).data.total_records =
        tbl.length := by
      simp [get_data_count, runSql, format_response]
    have hs : (summaryDataOf tbl).total_records = (mldFiltered tbl).length := by
      simp [summaryDataOf, summaryRowOf, truthyNat_eq]
    rw [hc, hs]
    exact hlt

/-- C10 witness: on a two-row table with one null-mld row the summary
counts 1 while get_data_count counts 2. -/
theorem C10_summary_counts_filtered_witness :
    (summaryDataOf tblW).total_records <
      (get_data_count ⟨tblW, Option.none⟩ "t").data.total_records :=
  (C10_summary_counts_filtered tblW "t" (by decide)).2.2


/-- C9: every row-returning operation returns its records ordered by the
datetime column ascending (null datetimes last, as the engine sorts them),
and the sort relation rowLe the queries order by reads only the datetime
column, so there is no secondary sort key. -/
theorem C9_ordering (db : Db) (now : String) (limit : Int) (latr lonr : Rat × Rat)
    (sdt edt : DateInput) :
    List.Pairwise outDtLe (get_sample_data db now limit).data ∧
    List.Pairwise outDtLe (query_by_location db now latr lonr limit).data ∧
    List.Pairwise outDtLe (query_by_date_range db now sdt edt limit).data ∧
    (∀ a b : Row, rowLe a b ↔ dtLe a.datetime b.datetime = true) := by
  refine ⟨?_, ?_, ?_, fun a b => Iff.rfl⟩
  · unfold get_sample_data
    cases hb : get_sample_data_body db limit with
    | error e => simp [format_response]
    | ok recs =>
      obtain ⟨hrecs, -, -⟩ := get_sample_data_body_ok hb
      subst hrecs
      exact pairwise_out_of_sorted db.table limit.toNat
  · unfold query_by_location
    cases hb : query_by_location_body db latr lonr limit with
    | error e => simp [format_response]
    | ok recs =>
      obtain ⟨hrecs, -, -, -⟩ := query_by_location_body_ok hb
      subst hrecs
      exact pairwise_out_of_sorted (db.table.filter (locPred latr lonr)) limit.toNat
  · unfold query_by_date_range
    cases hb : query_by_date_range_body db sdt edt limit with
    | error e => simp [format_response]
    | ok recs =>
      obtain ⟨sstr, estr, -, hrecs, -, -⟩ := query_by_date_range_body_ok hb
      subst hrecs
      exact pairwise_out_of_sorted (db.table.filter (datePred sstr estr)) limit.toNat

/-- C7: one get_data_summary call builds exactly two SQL statements; its
temporal_distribution has at most 12 entries, grouped by year and month
and listed in non-decreasing (year, month) order. -/
theorem C7_summary_two_queries (table_name : String) (tbl : List Row) (now : String) :
    (get_data_summary_queries table_name).length = 2 ∧
    (get_data_summary ⟨tbl, Option.none⟩ now).data = Option.some (summaryDataOf tbl) ∧
    (summaryDataOf tbl).temporal_distribution.length ≤ 12 ∧
    List.Pairwise tRecLe (summaryDataOf tbl).temporal_distribution := by
  have hmap : (summaryDataOf tbl).temporal_distribution =
      (temporal_groups tbl).map temporalRecOf := rfl
  have hg : List.Pairwise tdKeyLe (temporal_groups tbl) := by
    unfold temporal_groups
    exact List.Pairwise.sublist (List.take_sublist 12 _)
      (List.sorted_insertionSort tdKeyLe _)
  refine ⟨rfl, by simp [get_data_summary, runSql, format_response], ?_, ?_⟩
  · rw [hmap]
    simp only [List.length_map]
    unfold temporal_groups
    simp only [List.length_take]
    exact Nat.min_le_left _ _
  · rw [hmap]
    exact List.Pairwise.map _ (fun a b h => tRecLe_of_keyLe a b h) hg


/-- C2: an out-of-bounds or inverted latitude or longitude range makes
query_by_location return success=false with data=[]; with in-bounds,
correctly ordered ranges every returned record carries a latitude and a
longitude inside the requested ranges. -/
theorem C2_location_bounds (db : Db) (now : String) (limit : Int)
    (minLat maxLat minLon maxLon : Rat) :
    ((minLat < -90 ∨ 90 < minLat ∨ maxLat < -90 ∨ 90 < maxLat ∨ maxLat < minLat ∨
        minLon < -180 ∨ 180 < minLon ∨ maxLon < -180 ∨ 180 < maxLon ∨
        maxLon < minLon) →
      (query_by_location db now (minLat, maxLat) (minLon, maxLon) limit).success =
        false ∧
      (query_by_location db now (minLat, maxLat) (minLon, maxLon) limit).data = []) ∧
    ((-90 ≤ minLat ∧ minLat ≤ maxLat ∧ maxLat ≤ 90 ∧
      -180 ≤ minLon ∧ minLon ≤ maxLon ∧ maxLon ≤ 180) →
      ∀ rec ∈ (query_by_location db now (minLat, maxLat) (minLon, maxLon) limit).data,
        (∃ la, rec.lat = PyVal.num la ∧ minLat ≤ la ∧ la ≤ maxLat) ∧
        (∃ lo, rec.lon = PyVal.num lo ∧ minLon ≤ lo ∧ lo ≤ maxLon)) := by
  constructor
  · intro h
    have hv : ∀ u : Unit,
        validate_coordinates (minLat, maxLat) (minLon, maxLon) ≠ Except.ok u := by
      intro u
      cases u
      rw [Ne, validate_coordinates_ok_iff]
      intro hc
      rcases h with h | h | h | h | h | h | h | h | h | h <;> linarith [hc.1, hc.2.1,
        hc.2.2.1, hc.2.2.2.1, hc.2.2.2.2.1, hc.2.2.2.2.2]
    unfold query_by_location
    cases hb : query_by_location_body db (minLat, maxLat) (minLon, maxLon) limit with
    | error e => simp [format_response]
    | ok recs =>
      obtain ⟨-, -, hok, -⟩ := query_by_location_body_ok hb
      exact absurd hok (hv ())
  · intro h rec hrec
    unfold query_by_location at hrec
    cases hb : query_by_location_body db (minLat, maxLat) (minLon, maxLon) limit with
    | error e =>
      rw [hb] at hrec
      simp [format_response] at hrec
    | ok recs =>
      rw [hb] at hrec
      obtain ⟨hrecs, -, -, -⟩ := query_by_location_body_ok hb
      subst hrecs
      simp only [format_response] at hrec
      rcases List.mem_map.mp hrec with ⟨row, hrowmem, hrow⟩
      have hrow2 : row ∈ db.table.filter (locPred (minLat, maxLat) (minLon, maxLon)) :=
        (List.perm_insertionSort rowLe _).subset (List.take_subset _ _ hrowmem)
      have hp := (List.mem_filter.mp hrow2).2
      simp only [locPred, Bool.and_eq_true] at hp
      obtain ⟨hp1, hp2⟩ := hp
      rw [← hrow]
      constructor
      · cases hlat : row.lat with
        | none => rw [hlat] at hp1; cases hp1
        | some la =>
          rw [hlat] at hp1
          simp only [decide_eq_true_eq] at hp1
          exact ⟨la, by simp [cleanRec, readRow, pyOfOptRat, cleanVal, pd_isna, hlat],
            hp1.1, hp1.2⟩
      · cases hlon : row.lon with
        | none => rw [hlon] at hp2; cases hp2
        | some lo =>
          rw [hlon] at hp2
          simp only [decide_eq_true_eq] at hp2
          exact ⟨lo, by simp [cleanRec, readRow, pyOfOptRat, cleanVal, pd_isna, hlon],
            hp2.1, hp2.2⟩

/-- C2 witness: an inverted latitude range is rejected with the empty error
envelope, and an Indian-Ocean box query on a one-row table returns that row
with its coordinates inside the box. -/
theorem C2_location_bounds_witness :
    ((query_by_location ⟨[rowW], Option.none⟩ "t" (10, -10) (60, 80) 100).success =
        false ∧
      (query_by_location ⟨[rowW], Option.none⟩ "t" (10, -10) (60, 80) 100).data =
        []) ∧
    ((∃ la, (⟨PyVal.str "2019-01-29", PyVal.num 5, PyVal.num 70, PyVal.num 10⟩ :
        PyRec).lat = PyVal.num la ∧ (-10 : Rat) ≤ la ∧ la ≤ 10) ∧
      (∃ lo, (⟨PyVal.str "2019-01-29", PyVal.num 5, PyVal.num 70, PyVal.num 10⟩ :
        PyRec).lon = PyVal.num lo ∧ (60 : Rat) ≤ lo ∧ lo ≤ 80)) := by
  constructor
  · exact (C2_location_bounds ⟨[rowW], Option.none⟩ "t" 100 10 (-10) 60 80).1
      (by decide)
  · exact (C2_location_bounds ⟨[rowW], Option.none⟩ "t" 100 (-10) 10 60 80).2
      (by decide)
      ⟨PyVal.str "2019-01-29", PyVal.num 5, PyVal.num 70, PyVal.num 10⟩
      (by decide)


/-- C5: a start date strictly after the end date makes query_by_date_range
return success=false with data=[] (equal dates pass validation, and with a
working engine and a valid limit the call reports success, for date-object
as well as for well-formed string inputs); a string in either the start or
the end position that does not parse as %Y-%m-%d yields success=false with
the format-failure message. -/
theorem C5_date_validation (db : Db) (now : String) (limit : Int)
    (sdt edt : DateInput) (sy sm sd2 : Nat) (s : String) :
    (∀ st et sstr estr, parse_date_input sdt = Except.ok (st, sstr) →
      parse_date_input edt = Except.ok (et, estr) →
      dateLtB et st = true →
      (query_by_date_range db now sdt edt limit).success = false ∧
      (query_by_date_range db now sdt edt limit).data = []) ∧
    (db.fail = Option.none → 1 ≤ limit → limit ≤ 10000 →
      (query_by_date_range db now (DateInput.date sy sm sd2) (DateInput.date sy sm sd2)
        limit).success = true) ∧
    (∀ st et sstr estr, parse_date_input sdt = Except.ok (st, sstr) →
      parse_date_input edt = Except.ok (et, estr) →
      dateLtB et st = false → db.fail = Option.none → 1 ≤ limit → limit ≤ 10000 →
      (query_by_date_range db now sdt edt limit).success = true) ∧
    (∀ e, strptime_Ymd s = Except.error e →
      (query_by_date_range db now (DateInput.str s) edt limit).success = false ∧
      (query_by_date_range db now (DateInput.str s) edt limit).data = [] ∧
      (query_by_date_range db now (DateInput.str s) edt limit).message =
        "Error querying by date range: " ++ ("Invalid date format: " ++ e)) ∧
    (∀ st sstr e, parse_date_input sdt = Except.ok (st, sstr) →
      strptime_Ymd s = Except.error e →
      (query_by_date_range db now sdt (DateInput.str s) limit).success = false ∧
      (query_by_date_range db now sdt (DateInput.str s) limit).data = [] ∧
      (query_by_date_range db now sdt (DateInput.str s) limit).message =
        "Error querying by date range: " ++ ("Invalid date format: " ++ e)) := by
  refine ⟨?_, ?_, ?_, ?_, ?_⟩
  · intro st et sstr estr hs he hlt
    have hv : validate_dates sdt edt =
        Except.error ("Start date " ++ sstr ++ " must be before end date " ++ estr) := by
      unfold validate_dates
      rw [hs, he]
      dsimp only
      rw [if_pos hlt]
    simp [query_by_date_range, query_by_date_range_body, hv, format_response]
  · intro hf h1 h2
    have hv : validate_dates (DateInput.date sy sm sd2) (DateInput.date sy sm sd2) =
        Except.ok (strftime_Ymd sy sm sd2, strftime_Ymd sy sm sd2) := by
      have hirr : ¬ (dateLtB (sy, sm, sd2) (sy, sm, sd2) = true) := by
        rw [dateLtB_irrefl]
        exact Bool.false_ne_true
      unfold validate_dates parse_date_input
      dsimp only
      rw [if_neg hirr]
    have hc : ¬ (limit ≤ 0 ∨ limit > 10000) := by omega
    rcases db with ⟨tbl, fail⟩
    obtain rfl : fail = Option.none := hf
    simp [query_by_date_range, query_by_date_range_body, hv, hc, runSql,
      format_response]
  · intro st et sstr estr hs he hlt hf h1 h2
    have hv : validate_dates sdt edt = Except.ok (sstr, estr) := by
      unfold validate_dates
      rw [hs, he]
      dsimp only
      rw [if_neg (by rw [hlt]; exact Bool.false_ne_true)]
    have hc : ¬ (limit ≤ 0 ∨ limit > 10000) := by omega
    rcases db with ⟨tbl, fail⟩
    obtain rfl : fail = Option.none := hf
    simp [query_by_date_range, query_by_date_range_body, hv, hc, runSql,
      format_response]
  · intro e he
    have hv : validate_dates (DateInput.str s) edt =
        Except.error ("Invalid date format: " ++ e) := by
      unfold validate_dates parse_date_input
      dsimp only
      rw [he]
      rfl
    refine ⟨?_, ?_, ?_⟩ <;>
      simp [query_by_date_range, query_by_date_range_body, hv, format_response]
  · intro st sstr e hs he
    have hv : validate_dates sdt (DateInput.str s) =
        Except.error ("Invalid date format: " ++ e) := by
      unfold validate_dates
      rw [hs]
      dsimp only
      unfold parse_date_input
      dsimp only
      rw [he]
      rfl
    refine ⟨?_, ?_, ?_⟩ <;>
      simp [query_by_date_range, query_by_date_range_body, hv, format_response]

/-- C5 witness: an inverted concrete date pair is rejected; an equal pair
of date objects succeeds on a working engine; a well-formed string pair
succeeds; a malformed string in the start position and one in the end
position each yield the format-failure message. -/
theorem C5_date_validation_witness :
    ((query_by_date_range ⟨[rowW], Option.none⟩ "t" (DateInput.str "2019-01-30")
        (DateInput.str "2019-01-29") 100).success = false ∧
      (query_by_date_range ⟨[rowW], Option.none⟩ "t" (DateInput.str "2019-01-30")
        (DateInput.str "2019-01-29") 100).data = []) ∧
    (query_by_date_range ⟨[rowW], Option.none⟩ "t" (DateInput.date 2019 1 29)
      (DateInput.date 2019 1 29) 100).success = true ∧
    (query_by_date_range ⟨[rowW], Option.none⟩ "t" (DateInput.str "2019-01-01")
      (DateInput.str "2019-12-31") 100).success = true ∧
    ((query_by_date_range ⟨[rowW], Option.none⟩ "t" (DateInput.str "oops")
        (DateInput.str "2019-12-31") 100).success = false ∧
      (query_by_date_range ⟨[rowW], Option.none⟩ "t" (DateInput.str "oops")
        (DateInput.str "2019-12-31") 100).message =
        "Error querying by date range: " ++ ("Invalid date format: " ++
          ("time data " ++ "oops" ++ " does not match format %Y-%m-%d"))) ∧
    ((query_by_date_range ⟨[rowW], Option.none⟩ "t" (DateInput.str "2019-01-01")
        (DateInput.str "oops") 100).success = false ∧
      (query_by_date_range ⟨[rowW], Option.none⟩ "t" (DateInput.str "2019-01-01")
        (DateInput.str "oops") 100).message =
        "Error querying by date range: " ++ ("Invalid date format: " ++
          ("time data " ++ "oops" ++ " does not match format %Y-%m-%d"))) := by
  refine ⟨?_, ?_, ?_, ?_, ?_⟩
  · exact (C5_date_validation ⟨[rowW], Option.none⟩ "t" 100 (DateInput.str "2019-01-30")
      (DateInput.str "2019-01-29") 2019 1 29 "x").1 (2019, 1, 30) (2019, 1, 29)
      "2019-01-30" "2019-01-29" (by decide) (by decide) (by decide)
  · exact (C5_date_validation ⟨[rowW], Option.none⟩ "t" 100 (DateInput.str "x")
      (DateInput.str "x") 2019 1 29 "x").2.1 rfl (by decide) (by decide)
  · exact (C5_date_validation ⟨[rowW], Option.none⟩ "t" 100 (DateInput.str "2019-01-01")
      (DateInput.str "2019-12-31") 2019 1 29 "x").2.2.1 (2019, 1, 1) (2019, 12, 31)
      "2019-01-01" "2019-12-31" (by decide) (by decide) (by decide) rfl (by decide)
      (by decide)
  · have h := (C5_date_validation ⟨[rowW], Option.none⟩ "t" 100 (DateInput.str "oops")
      (DateInput.str "2019-12-31") 2019 1 29 "oops").2.2.2.1
      ("time data " ++ "oops" ++ " does not match format %Y-%m-%d") (by decide)
    exact ⟨h.1, h.2.2⟩
  · have h := (C5_date_validation ⟨[rowW], Option.none⟩ "t" 100
      (DateInput.str "2019-01-01") (DateInput.str "x") 2019 1 29 "oops").2.2.2.2
      (2019, 1, 1) "2019-01-01"
      ("time data " ++ "oops" ++ " does not match format %Y-%m-%d")
      (by decide) (by decide)
    exact ⟨h.1, h.2.2⟩


/-- C3 counterexample: on a table whose single row (with non-null mld) has
latitude exactly 0, a row matches (total_records = 1) and the actual MIN(lat)
aggregate is 0, yet the returned statistics hold null for the minimum
latitude: the claim that a matched aggregate is never null is false,
because the formatting tests Python truthiness and 0.0 is falsy. -/
theorem C3_counterexample :
    (summaryRowOf dbC3.table).min_latitude = Option.some 0 ∧
    (get_data_summary dbC3 "t").data.map SummaryData.total_records =
      Option.some 1 ∧
    (get_data_summary dbC3 "t").data.map SummaryData.lat_min =
      Option.some Option.none := by
  decide

/-- C3 amended: missing aggregates are surfaced as null and total_records
and unique_dates are 0 on an empty match; when rows match, each aggregate
field holds the actual aggregate value unless that value is falsy to
Python (0 for a numeric aggregate, the empty string for a date), in which
case it is surfaced as null as well: every reported field equals the
truthiness formatting of the corresponding actual aggregate. -/
theorem C3_summary_truthiness (tbl : List Row) (now : String) :
    (get_data_summary ⟨tbl, Option.none⟩ now).data = Option.some (summaryDataOf tbl) ∧
    ((summaryDataOf tbl).total_records = (summaryRowOf tbl).total_records ∧
      (summaryDataOf tbl).unique_dates = (summaryRowOf tbl).unique_dates ∧
      (summaryDataOf tbl).earliest = truthyStr (summaryRowOf tbl).earliest_date ∧
      (summaryDataOf tbl).latest = truthyStr (summaryRowOf tbl).latest_date ∧
      (summaryDataOf tbl).lat_min = truthyRat (summaryRowOf tbl).min_latitude ∧
      (summaryDataOf tbl).lat_max = truthyRat (summaryRowOf tbl).max_latitude ∧
      (summaryDataOf tbl).lon_min = truthyRat (summaryRowOf tbl).min_longitude ∧
      (summaryDataOf tbl).lon_max = truthyRat (summaryRowOf tbl).max_longitude ∧
      (summaryDataOf tbl).mld_average =
        truthyRat (summaryRowOf tbl).avg_mixed_layer_depth ∧
      (summaryDataOf tbl).mld_minimum =
        truthyRat (summaryRowOf tbl).min_mixed_layer_depth ∧
      (summaryDataOf tbl).mld_maximum =
        truthyRat (summaryRowOf tbl).max_mixed_layer_depth) ∧
    (mldFiltered tbl = [] →
      (summaryDataOf tbl).total_records = 0 ∧
      (summaryDataOf tbl).unique_dates = 0 ∧
      (summaryDataOf tbl).earliest = Option.none ∧
      (summaryDataOf tbl).latest = Option.none ∧
      (summaryDataOf tbl).lat_min = Option.none ∧
      (summaryDataOf tbl).lat_max = Option.none ∧
      (summaryDataOf tbl).lon_min = Option.none ∧
      (summaryDataOf tbl).lon_max = Option.none ∧
      (summaryDataOf tbl).mld_average = Option.none ∧
      (summaryDataOf tbl).mld_minimum = Option.none ∧
      (summaryDataOf tbl).mld_maximum = Option.none) ∧
    (∀ q : Rat, q ≠ 0 → (summaryRowOf tbl).min_latitude = Option.some q →
      (summaryDataOf tbl).lat_min = Option.some q) ∧
    ((summaryRowOf tbl).min_latitude = Option.some 0 →
      (summaryDataOf tbl).lat_min = Option.none) := by
  refine ⟨by simp [get_data_summary, runSql, format_response],
    ⟨truthyNat_eq _, truthyNat_eq _, rfl, rfl, rfl, rfl, rfl, rfl, rfl, rfl, rfl⟩,
    ?_, ?_, ?_⟩
  · intro h
    simp [summaryDataOf, summaryRowOf, h, minimumRat, maximumRat, minimumStr,
      maximumStr, truthyRat, truthyStr, truthyNat]
  · intro q hq h
    have : (summaryDataOf tbl).lat_min = truthyRat (summaryRowOf tbl).min_latitude :=
      rfl
    rw [this, h]
    simp [truthyRat, hq]
  · intro h
    have : (summaryDataOf tbl).lat_min = truthyRat (summaryRowOf tbl).min_latitude :=
      rfl
    rw [this, h]
    simp [truthyRat]

/-- C3 amended witness: the empty table surfaces every aggregate as null
with zero counts; a nonzero minimum latitude is passed through; the zero
minimum latitude of dbC3 is surfaced as null. -/
theorem C3_summary_truthiness_witness :
    ((summaryDataOf []).total_records = 0 ∧ (summaryDataOf []).lat_min =
      Option.none) ∧
    (summaryDataOf [rowW]).lat_min = Option.some 5 ∧
    (summaryDataOf dbC3.table).lat_min = Option.none := by
  refine ⟨?_, ?_, ?_⟩
  · have h := (C3_summary_truthiness [] "t").2.2.1 (by decide)
    exact ⟨h.1, h.2.2.2.2.1⟩
  · exact (C3_summary_truthiness [rowW] "t").2.2.2.1 5 (by decide) (by decide)
  · exact (C3_summary_truthiness dbC3.table "t").2.2.2.2 (by decide)

end OceanData
